import Mathlib

/-!
# Verification of the fintech-backend-para specification

Shallow embedding of the backend's request handlers (`src/server.js`,
`src/api/handler.js`) and of the ethers-v6 primitives they invoke
(EIP-1559 unsigned serialization, keccak-256, `parseEther`,
`formatEther`).  Machine words are `Nat` with explicit `% 2^64`
truncation; fallible steps return `Except String`.
-/

namespace FintechPara

set_option maxRecDepth 100000

/-! ## Keccak-256 (as used by `ethers.keccak256`) -/

/-- Truncation to a 64-bit lane. -/
def u64 (n : Nat) : Nat := n % 18446744073709551616

/-- Left rotation of a 64-bit lane. -/
def rotl64 (n r : Nat) : Nat := u64 ((n <<< r) ||| (n >>> (64 - r)))

/-- Lane `(x, y)` of a Keccak state stored as a flat 25-element list. -/
def lane (s : List Nat) (x y : Nat) : Nat := s.getD (x + 5 * y) 0

/-- Keccak θ step. -/
def theta (s : List Nat) : List Nat :=
  let c := fun x => lane s x 0 ^^^ lane s x 1 ^^^ lane s x 2 ^^^ lane s x 3 ^^^ lane s x 4
  let d := fun x => c ((x + 4) % 5) ^^^ rotl64 (c ((x + 1) % 5)) 1
  (List.range 25).map (fun i => s.getD i 0 ^^^ d (i % 5))

/-- Rotation offsets of the ρ step, generated from their defining sequence:
starting at lane `(1,0)`, step `t` assigns offset `(t+1)(t+2)/2 mod 64` and
moves to lane `(y, 2x+3y mod 5)`; lane `(0,0)` keeps offset 0.  Stored as
pairs of flat index `x + 5*y` and offset. -/
def rhoPairs : List (Nat × Nat) :=
  ((List.range 24).foldl
    (fun st t =>
      let p := st.1
      ((p.2, (2 * p.1 + 3 * p.2) % 5),
       (p.1 + 5 * p.2, (t + 1) * (t + 2) / 2 % 64) :: st.2))
    ((1, 0), [])).2

/-- Rotation offset of the lane at flat index `i`. -/
def rhoOff (i : Nat) : Nat :=
  ((rhoPairs.find? (fun p => p.1 = i)).map Prod.snd).getD 0

/-- Keccak ρ and π steps combined. -/
def rhoPi (s : List Nat) : List Nat :=
  (List.range 25).foldl
    (fun b i =>
      let x := i % 5
      let y := i / 5
      b.set (y + 5 * ((2 * x + 3 * y) % 5)) (rotl64 (s.getD i 0) (rhoOff i)))
    (List.replicate 25 0)

/-- Keccak χ step; lane complement is xor with the all-ones mask. -/
def chi (s : List Nat) : List Nat :=
  (List.range 25).map (fun i =>
    let x := i % 5
    let y := i / 5
    s.getD i 0 ^^^
      ((s.getD ((x + 1) % 5 + 5 * y) 0 ^^^ 18446744073709551615) &&&
        s.getD ((x + 2) % 5 + 5 * y) 0))

/-- Keccak round constants (decimal). -/
def keccakRC : List Nat :=
  [1, 32898, 9223372036854808714,
   9223372039002292224, 32907, 2147483649,
   9223372039002292353, 9223372036854808585, 138,
   136, 2147516425, 2147483658,
   2147516555, 9223372036854775947, 9223372036854808713,
   9223372036854808579, 9223372036854808578, 9223372036854775936,
   32778, 9223372039002259466, 9223372039002292353,
   9223372036854808704, 2147483649, 9223372039002292232]

/-- One Keccak-f round: θ, ρπ, χ, ι. -/
def keccakRound (s : List Nat) (rc : Nat) : List Nat :=
  let s := chi (rhoPi (theta s))
  s.set 0 (s.getD 0 0 ^^^ rc)

/-- The Keccak-f[1600] permutation (24 rounds). -/
def keccakF (s : List Nat) : List Nat := keccakRC.foldl keccakRound s

/-- Multi-rate (pad10*1, domain byte 0x01) padding to a 136-byte multiple. -/
def keccakPad (msg : List Nat) : List Nat :=
  let padLen := 136 - msg.length % 136
  if padLen = 1 then msg ++ [0x81]
  else msg ++ 0x01 :: List.replicate (padLen - 2) 0 ++ [0x80]

/-- Split a byte list into chunks of `size` bytes (fuel-structured so that it
reduces in the kernel). -/
def chunksF {α : Type} (size : Nat) : Nat → List α → List (List α)
  | 0, _ => []
  | _, [] => []
  | fuel + 1, l => l.take size :: chunksF size fuel (l.drop size)

/-- A little-endian 8-byte group as one 64-bit lane. -/
def leLane (bytes : List Nat) : Nat := bytes.foldr (fun b acc => acc * 256 + b) 0

/-- The 8 little-endian bytes of a 64-bit lane. -/
def laneBytes (n : Nat) : List Nat := (List.range 8).map (fun k => (n >>> (8 * k)) &&& 255)

/-- Absorb one 136-byte block into the sponge state. -/
def absorbBlock (s block : List Nat) : List Nat :=
  let lanes := (chunksF 8 block.length block).map leLane
  keccakF ((List.range 25).map (fun i => s.getD i 0 ^^^ lanes.getD i 0))

/-- keccak-256 of a byte list, as computed by `ethers.keccak256`. -/
def keccak256 (msg : List Nat) : List Nat :=
  let padded := keccakPad msg
  let s := (chunksF 136 padded.length padded).foldl absorbBlock (List.replicate 25 0)
  ((s.take 4).map laneBytes).foldr (· ++ ·) []

/-! ## RLP and the EIP-1559 unsigned serialization (ethers v6 `Transaction`)

`src/server.js` builds `tx`, takes `ethers.Transaction.from(tx).unsignedSerialized`
and hashes it with `ethers.keccak256`.  For an EIP-1559 transaction ethers
serializes `0x02 ‖ rlp([chainId, nonce, maxPriorityFeePerGas, maxFeePerGas,
gasLimit, to, value, data, accessList])`. -/

/-- Big-endian bytes of a natural number, fuel-structured (`fuel = 64` covers
every quantity the backend serializes). -/
def beBytesF : Nat → Nat → List Nat
  | 0, _ => []
  | fuel + 1, n => if n = 0 then [] else beBytesF fuel (n / 256) ++ [n % 256]

/-- Minimal big-endian byte representation (ethers `toBeArray`); empty for 0. -/
def beBytes (n : Nat) : List Nat := beBytesF 64 n

/-- RLP encoding of a byte string. -/
def rlpBytes (bs : List Nat) : List Nat :=
  if bs.length = 1 ∧ bs.headD 0 < 128 then bs
  else if bs.length ≤ 55 then (128 + bs.length) :: bs
  else
    let lb := beBytes bs.length
    (183 + lb.length) :: (lb ++ bs)

/-- RLP encoding of a natural number (minimal big-endian bytes). -/
def rlpNat (n : Nat) : List Nat := rlpBytes (beBytes n)

/-- RLP list header wrapped around an already-encoded payload. -/
def rlpList (payload : List Nat) : List Nat :=
  if payload.length ≤ 55 then (192 + payload.length) :: payload
  else
    let lb := beBytes payload.length
    (247 + lb.length) :: (lb ++ payload)

/-- The unsigned EIP-1559 transaction assembled by the send handlers.  `value`
is an `Int` because `ethers.parseEther` accepts negative decimals; ethers only
rejects a negative value later, when serializing. -/
structure Tx where
  chainId : Nat
  nonce : Nat
  toAddr : List Nat
  value : Int
  gasLimit : Nat
  maxFeePerGas : Nat
  maxPriorityFeePerGas : Nat
  data : List Nat
deriving DecidableEq

/-- ethers v6 `getUint` (used by transaction serialization on the `value`
field): negative quantities are rejected. -/
def getUintE (v : Int) : Except String Nat :=
  if v < 0 then .error "unsigned value cannot be negative" else .ok v.toNat

/-- RLP payload of the unsigned EIP-1559 transaction (field order fixed by
EIP-1559; empty access list encodes as `0xc0`). -/
def eip1559Payload (tx : Tx) (value : Nat) : List Nat :=
  rlpNat tx.chainId ++ rlpNat tx.nonce ++ rlpNat tx.maxPriorityFeePerGas ++
  rlpNat tx.maxFeePerGas ++ rlpNat tx.gasLimit ++ rlpBytes tx.toAddr ++
  rlpNat value ++ rlpBytes tx.data ++ rlpList []

/-- `ethers.Transaction.from(tx).unsignedSerialized`: type byte `0x02` followed
by the RLP list; fails exactly when the value is negative. -/
def unsignedSerializedE (tx : Tx) : Except String (List Nat) :=
  (getUintE tx.value).map (fun v => 2 :: rlpList (eip1559Payload tx v))

/-- The signing digest of the send handlers:
`ethers.keccak256(unsignedTx.unsignedSerialized)`. -/
def signingDigestE (tx : Tx) : Except String (List Nat) :=
  (unsignedSerializedE tx).map keccak256

/-- Lowercase hexadecimal digits. -/
def hexChars : List Char := "0123456789abcdef".toList

/-- Hex rendering (lowercase, `0x`-prefixed) of a byte list: the form in which
`ethers.keccak256` returns the digest that is submitted to the signer. -/
def bytesToHex (bs : List Nat) : String :=
  "0x" ++ String.mk (bs.foldr (fun b acc => hexChars.getD (b / 16 % 16) '0' ::
    hexChars.getD (b % 16) '0' :: acc) [])

/-! ## Decimal amount conversion (ethers v6 `parseEther` / `formatEther`) -/

/-- Value of a digit list, most significant first. -/
def digitsToNat (ds : List Char) : Nat := ds.foldl (fun a c => a * 10 + (c.toNat - 48)) 0

/-- Match `^([0-9]*)\.?([0-9]*)$` (the body of ethers' `FixedNumber.fromString`
regex after the optional sign): the whole and fractional digit groups, or
`none` when the string has any other character. -/
def splitDecimal (cs : List Char) : Option (List Char × List Char) :=
  let whole := cs.takeWhile Char.isDigit
  match cs.dropWhile Char.isDigit with
  | [] => some (whole, [])
  | '.' :: rest => if rest.all Char.isDigit then some (whole, rest) else none
  | _ => none

/-- ethers v6 `parseEther`, that is `parseUnits(value, 18)` via
`FixedNumber.fromString` with width 512 and 18 decimals: optional leading
minus, decimal digits, at most 18 significant fractional digits (further
digits must be zero), signed 512-bit range check.  Note that negative amounts
parse successfully. -/
def parseEther (s : String) : Except String Int :=
  let cs := s.toList
  let neg := cs.headD ' ' = '-'
  let cs := if neg then cs.tail else cs
  match splitDecimal cs with
  | none => .error "invalid FixedNumber string value"
  | some (whole, dec) =>
    if whole.length + dec.length = 0 then .error "invalid FixedNumber string value"
    else if ¬ (dec.drop 18).all (· = '0') then .error "too many decimals for format"
    else
      let mag : Nat := digitsToNat (whole ++ (dec ++ List.replicate 18 '0').take 18)
      let v : Int := if neg then -(mag : Int) else (mag : Int)
      if v < -(2 ^ 511) ∨ (2 ^ 511 : Int) ≤ v then .error "overflow" else .ok v

/-- Decimal digit list of a natural number (`"0"` for 0), fuel-structured. -/
def natDigitsF : Nat → Nat → List Char
  | 0, _ => []
  | fuel + 1, n =>
    if n < 10 then [hexChars.getD n '0']
    else natDigitsF fuel (n / 10) ++ [hexChars.getD (n % 10) '0']

/-- Decimal digit list of a natural number, most significant first. -/
def natDigits (n : Nat) : List Char := natDigitsF 200 n

/-- Drop leading `'0'` characters but keep at least one character. -/
def trimLeadZeros (cs : List Char) : List Char :=
  match cs.dropWhile (· = '0') with
  | [] => ['0']
  | r => r

/-- ethers v6 `formatEther`: render a wei balance as a decimal ether string,
always with a decimal point, whole part and fraction trimmed to at least one
digit each (`0 ↦ "0.0"`, `1500000000000000000 ↦ "1.5"`). -/
def formatEther (wei : Nat) : String :=
  let str := natDigits wei
  let str := List.replicate (19 - str.length) '0' ++ str
  let whole := trimLeadZeros (str.take (str.length - 18))
  let dec := (trimLeadZeros (str.drop (str.length - 18)).reverse).reverse
  String.mk whole ++ "." ++ String.mk dec

/-! ## Wallet provisioning (`createParaWallet` in `src/server.js` and
`src/api/handler.js`) -/

/-- Attempt bound of the readiness-polling loop (`MAX_ATTEMPTS` in the code). -/
def maxAttempts : Nat := 60

/-- Fixed polling interval in milliseconds (`setTimeout(r, 500)`). -/
def pollIntervalMs : Nat := 500

/-- The in-memory `walletMap` (`supabase_user_id -> para_wallet_id`), newest
entry first so that insertion overwrites (last-write-wins, as JS object
assignment does). -/
def lookupMap (m : List (String × String)) (k : String) : Option String :=
  (m.find? (fun p => p.1 = k)).map Prod.snd

/-- Record an association (`walletMap[userId] = walletId`). -/
def insertMap (k v : String) (m : List (String × String)) : List (String × String) :=
  (k, v) :: m

/-- The `while (wallet.status !== 'ready' && attempts < MAX_ATTEMPTS)` loop.
`poll i` is the outcome of the `i`-th `GET /wallets/{id}` status query (a
thrown `paraRequest` error propagates).  The fuel argument mirrors
`MAX_ATTEMPTS - attempts`; the loop is entered with fuel `maxAttempts` and
attempt counter 0.  Returns the final wallet status (or the propagated error)
together with the list of attempt indices at which a status query was
actually issued. -/
def pollLoop (poll : Nat → Except String String) :
    Nat → String → Nat → Except String String × List Nat
  | 0, w, _ => (.ok w, [])
  | fuel + 1, w, a =>
    if w = "ready" then (.ok w, [])
    else
      match poll a with
      | .error e => (.error e, [a])
      | .ok w' =>
        let r := pollLoop poll fuel w' (a + 1)
        (r.1, a :: r.2)

/-- `createParaWallet` after the creation call: `initialStatus` is
`res.wallet.status` from `POST /wallets`; the function polls, throws
`Wallet creation timeout` when the bound is exhausted without reaching
`ready`, and records `walletMap[userId] = walletId` only on the success path.
Returns the (possibly updated) map, the thrown error or returned wallet id,
and the issued status queries. -/
def createParaWallet (userId walletId initialStatus : String)
    (poll : Nat → Except String String) (m : List (String × String)) :
    List (String × String) × Except String String × List Nat :=
  match pollLoop poll maxAttempts initialStatus 0 with
  | (.error e, tr) => (m, .error e, tr)
  | (.ok w, tr) =>
    if w = "ready" then (insertMap userId walletId m, .ok walletId, tr)
    else (m, .error ("Wallet creation timeout (status: " ++ w ++ ")"), tr)

/-! ## HTTP handlers -/

/-- JSON values appearing in response bodies. -/
inductive JVal where
  | s (v : String)
  | null
deriving DecidableEq

/-- A JSON response body, as an ordered field list. -/
abbrev Body := List (String × JVal)

/-- Outbound calls to the wallet provider (Para) and the chain RPC endpoint,
in issue order.  Identity-provider (Supabase) calls are not tracked: the
claims only constrain wallet-provider and chain-RPC traffic. -/
inductive Effect where
  | para (endpoint : String)
  | paraSign (walletId digestHex : String)
  | rpc (op : String)
deriving DecidableEq

/-- An HTTP response together with the external calls the handler issued. -/
structure HttpResp where
  status : Nat
  body : Body
  effects : List Effect
deriving DecidableEq

/-- JS `String.prototype.split(' ')` on the character list: split at every
space, keeping empty pieces (so `"".split(' ') = [""]`). -/
def splitSpAux : List Char → List Char → List String
  | [], acc => [String.mk acc.reverse]
  | ' ' :: rest, acc => String.mk acc.reverse :: splitSpAux rest []
  | c :: rest, acc => splitSpAux rest (c :: acc)

/-- JS `s.split(' ')`. -/
def splitSpace (s : String) : List String := splitSpAux s.toList []

/-- `req.headers.authorization?.split(' ')[1]`. -/
def extractToken (auth : Option String) : Option String :=
  auth.bind (fun h => (splitSpace h).get? 1)

/-- JS falsiness of an optional string field (`undefined` or `""`). -/
def strFalsy : Option String → Bool
  | none => true
  | some "" => true
  | some _ => false

/-- Collaborators of `GET /wallet`: `verify` is `supabase.auth.getUser`
(returning the user id or `null`), `paraGetAddress` is `getWalletAddress`
(one `GET /wallets/{id}`), `rpcGetBalance` is `provider.getBalance` in wei. -/
structure WalletDeps where
  verify : String → Option String
  walletMap : List (String × String)
  paraGetAddress : String → Except String String
  rpcGetBalance : String → Except String Nat

/-- The `GET /wallet` handler of `src/server.js` (the `GET /api/wallet`
handler of `src/api/handler.js` is identical up to the 404 message). -/
def getWalletHandler (auth : Option String) (d : WalletDeps) : HttpResp :=
  match extractToken auth with
  | none => ⟨401, [("error", .s "Missing token")], []⟩
  | some t =>
    if t = "" then ⟨401, [("error", .s "Missing token")], []⟩
    else
      match d.verify t with
      | none => ⟨401, [("error", .s "Invalid token")], []⟩
      | some userId =>
        match lookupMap d.walletMap userId with
        | none => ⟨404, [("error", .s "Wallet not found")], []⟩
        | some walletId =>
          match d.paraGetAddress walletId with
          | .error e => ⟨500, [("error", .s e)], [.para ("/wallets/" ++ walletId)]⟩
          | .ok address =>
            match d.rpcGetBalance address with
            | .error e =>
              ⟨500, [("error", .s e)],
               [.para ("/wallets/" ++ walletId), .rpc "getBalance"]⟩
            | .ok bal =>
              ⟨200, [("address", .s address), ("balance_eth", .s (formatEther bal))],
               [.para ("/wallets/" ++ walletId), .rpc "getBalance"]⟩

/-- Collaborators of `POST /send`. -/
structure SendDeps where
  verify : String → Option String
  walletMap : List (String × String)
  paraGetAddress : String → Except String String
  rpcGetTransactionCount : String → Except String Nat
  rpcGetFeeData : Except String (Nat × Nat)
  paraSignRaw : String → String → Except String String

/-- `getAddress` as applied by the `tx.to` setter inside
`ethers.Transaction.from`: `0x` followed by 40 hex digits, decoded to 20
bytes.  (ethers additionally enforces the EIP-55 checksum on mixed-case
input; no claim depends on that refinement.) -/
def parseAddress (s : String) : Except String (List Nat) :=
  let hexVal := fun (c : Char) => (hexChars.indexOf c.toLower : Nat)
  match s.toList with
  | '0' :: 'x' :: rest =>
    if rest.length = 40 ∧ rest.all (fun c => hexVal c < 16) then
      .ok ((chunksF 2 rest.length rest).map (fun p => 16 * hexVal (p.headD '0') + hexVal (p.getD 1 '0')))
    else .error "invalid address"
  | _ => .error "invalid address"

/-- Constructing the `tx` object literal and `ethers.Transaction.from(tx)`:
`ethers.parseEther(amount)` runs first (while building the literal), then the
`to` address is validated. -/
def buildTxE (nonce maxFee maxPrio : Nat) (toStr amount : String) : Except String Tx :=
  (parseEther amount).bind fun v =>
    (parseAddress toStr).map fun toB =>
      { chainId := 11155111, nonce := nonce, toAddr := toB, value := v,
        gasLimit := 21000, maxFeePerGas := maxFee, maxPriorityFeePerGas := maxPrio,
        data := [] }

/-- ethers v6 `Signature.from` on the hex string returned by the signer:
accepts a 65-byte (or 64-byte EIP-2098) hex signature. -/
def parseSignature (s : String) : Except String String :=
  match s.toList with
  | '0' :: 'x' :: rest =>
    if (rest.length = 130 ∨ rest.length = 128) ∧
        rest.all (fun c => hexChars.indexOf c.toLower < 16) then .ok s
    else .error "invalid signature"
  | _ => .error "invalid signature"

/-- The body of `POST /send` after authentication, field and association
checks: fetch the sender address, nonce and fee data, build the unsigned
transaction, hash its serialization, submit the digest to the signer, parse
the returned signature — and then fail, because `ethers.serializeTransaction`
does not exist in ethers v6 (the installed `ethers@^6.11.1`), so the
reconstruction line always throws and the handler's catch converts it to a
500.  Any earlier throw is likewise caught and returned as a 500. -/
def sendPipeline (toStr amount walletId : String) (d : SendDeps) : HttpResp :=
  let e0 := [Effect.para ("/wallets/" ++ walletId)]
  match d.paraGetAddress walletId with
  | .error e => ⟨500, [("error", .s e)], e0⟩
  | .ok fromAddress =>
    let e1 := e0 ++ [Effect.rpc "getTransactionCount"]
    match d.rpcGetTransactionCount fromAddress with
    | .error e => ⟨500, [("error", .s e)], e1⟩
    | .ok nonce =>
      let e2 := e1 ++ [Effect.rpc "getFeeData"]
      match d.rpcGetFeeData with
      | .error e => ⟨500, [("error", .s e)], e2⟩
      | .ok (maxFee, maxPrio) =>
        match buildTxE nonce maxFee maxPrio toStr amount with
        | .error e => ⟨500, [("error", .s e)], e2⟩
        | .ok tx =>
          match unsignedSerializedE tx with
          | .error e => ⟨500, [("error", .s e)], e2⟩
          | .ok ser =>
            let digest := bytesToHex (keccak256 ser)
            let e3 := e2 ++ [Effect.paraSign walletId digest]
            match d.paraSignRaw walletId digest with
            | .error e => ⟨500, [("error", .s e)], e3⟩
            | .ok sigHex =>
              match parseSignature sigHex with
              | .error e => ⟨500, [("error", .s e)], e3⟩
              | .ok _ =>
                ⟨500, [("error", .s "ethers.serializeTransaction is not a function")], e3⟩

/-- The `POST /send` handler of `src/server.js`: token check, field-presence
check, association lookup, then the pipeline. -/
def sendHandler (auth toStr amount : Option String) (d : SendDeps) : HttpResp :=
  match extractToken auth with
  | none => ⟨401, [("error", .s "Missing token")], []⟩
  | some t =>
    if t = "" then ⟨401, [("error", .s "Missing token")], []⟩
    else
      match d.verify t with
      | none => ⟨401, [("error", .s "Invalid token")], []⟩
      | some userId =>
        if strFalsy toStr || strFalsy amount then
          ⟨400, [("error", .s "to and amount required")], []⟩
        else
          match lookupMap d.walletMap userId with
          | none => ⟨404, [("error", .s "Wallet not found")], []⟩
          | some walletId =>
            sendPipeline (toStr.getD "") (amount.getD "") walletId d

/-! ## Registration handlers -/

/-- Outcome of the upstream account-creation call
(`supabase.auth.signUpWithPassword` in `src/server.js`,
`client.auth.admin.createUser` in `src/api/handler.js`): a thrown exception
(which reaches the handler's catch), a returned `error` object (mapped to
400), or a created user (id, email).  Under the installed supabase-js v2 the
method `signUpWithPassword` does not exist, so the real `src/server.js` run
always takes the `thrown` path; the dependency is kept general. -/
inductive SupaResult where
  | thrown (msg : String)
  | errObj (msg : String)
  | created (userId email : String)

/-- Wallet provisioning and address fetch as seen by the signup handlers:
the composed outcome of `createParaWallet` / `getWalletAddress`. -/
structure SignupDeps where
  signUp : String → String → SupaResult
  provision : Except String String
  getAddress : String → Except String String

/-- The `POST /signup` handler of `src/server.js`: one try/catch around the
whole flow; a provider `error` object yields 400, any thrown error
(including wallet-provisioning failure) yields 500. -/
def signupServer (email password : Option String) (d : SignupDeps) : Nat × Body :=
  if strFalsy email || strFalsy password then
    (400, [("error", .s "Email and password required")])
  else
    match d.signUp (email.getD "") (password.getD "") with
    | .thrown e => (500, [("error", .s e)])
    | .errObj m => (400, [("error", .s m)])
    | .created userId uemail =>
      match d.provision.bind d.getAddress with
      | .error e => (500, [("error", .s e)])
      | .ok address =>
        (200, [("user_id", .s userId), ("email", .s uemail),
               ("wallet_address", .s address)])

/-- The `POST /api/signup` handler of `src/api/handler.js`: the wallet steps
sit in an inner try/catch, so a provisioning failure after account creation
is reported as HTTP 200 with `wallet_address: null` and a `warning` field. -/
def signupApiHandler (email password : Option String) (d : SignupDeps) : Nat × Body :=
  if strFalsy email || strFalsy password then
    (400, [("error", .s "Email and password required")])
  else
    match d.signUp (email.getD "") (password.getD "") with
    | .thrown e => (500, [("error", .s e)])
    | .errObj m => (400, [("error", .s m)])
    | .created userId uemail =>
      match d.provision.bind d.getAddress with
      | .error _ =>
        (200, [("user_id", .s userId), ("email", .s uemail),
               ("wallet_address", JVal.null),
               ("warning", .s "User created but wallet creation failed")])
      | .ok address =>
        (200, [("user_id", .s userId), ("email", .s uemail),
               ("wallet_address", .s address)])

/-! ## Startup configuration (`src/server.js` module load) -/

/-- The environment variables the backend reads. -/
structure Env where
  supabaseUrl : Option String
  supabaseAnonKey : Option String
  paraApiKey : Option String
  infuraKey : Option String
  port : Option String

/-- The values `src/server.js` holds after module load. -/
structure ServerConfig where
  paraApiKey : Option String
  rpcUrl : String
  port : String
deriving DecidableEq

/-- Module-load initialization of `src/server.js`.  `createClient` (supabase-js
v2) throws when either Supabase value is absent, which makes those two — and
only those two — startup-fatal.  `PARA_API_KEY` is stored unchecked,
`INFURA_KEY` is interpolated into the RPC URL (JS template literals render a
missing value as the string `undefined`), and `PORT` silently falls back to
3000 (`process.env.PORT || 3000`). -/
def serverStartup (e : Env) : Except String ServerConfig :=
  if strFalsy e.supabaseUrl then .error "supabaseUrl is required."
  else if strFalsy e.supabaseAnonKey then .error "supabaseKey is required."
  else
    .ok { paraApiKey := e.paraApiKey,
          rpcUrl := "https://eth-sepolia.g.alchemy.com/v2/" ++ e.infuraKey.getD "undefined",
          port := if strFalsy e.port then "3000" else e.port.getD "3000" }

/-! ## Fixed vectors and sample collaborators -/

/-- The fixed test vector of the digest-correctness property: chainId 11155111,
nonce 0, zero recipient, value 0, gasLimit 21000, both fee fields 10⁹, empty
data. -/
def vectorTx : Tx :=
  { chainId := 11155111, nonce := 0, toAddr := List.replicate 20 0, value := 0,
    gasLimit := 21000, maxFeePerGas := 1000000000, maxPriorityFeePerGas := 1000000000,
    data := [] }

/-- Canonical unsigned wire encoding of `vectorTx`, written out byte by byte:
type `0x02`, list header `0xea`, then the nine RLP fields. -/
def vectorSerialized : List Nat :=
  [0x02, 0xea,
   0x83, 0xaa, 0x36, 0xa7,
   0x80,
   0x84, 0x3b, 0x9a, 0xca, 0x00,
   0x84, 0x3b, 0x9a, 0xca, 0x00,
   0x82, 0x52, 0x08,
   0x94, 0, 0, 0, 0, 0, 0, 0, 0, 0, 0, 0, 0, 0, 0, 0, 0, 0, 0, 0, 0,
   0x80, 0x80, 0xc0]

/-- Independently computed keccak-256 of `vectorSerialized` (cross-checked
against a separate reference implementation of Keccak). -/
def referenceDigest : List Nat :=
  [0xa1, 0x33, 0x15, 0xd0, 0x39, 0x78, 0xab, 0xd2,
   0x5d, 0xe9, 0x6d, 0x14, 0x65, 0x6e, 0x2d, 0xd5,
   0x56, 0x71, 0x92, 0x22, 0x52, 0x9c, 0x0b, 0x6f,
   0x3e, 0x34, 0x9c, 0x86, 0x8b, 0xb8, 0x08, 0xdb]

/-- The all-zero recipient address used by the fixed vector. -/
def zeroAddrHex : String := "0x0000000000000000000000000000000000000000"

/-- Send collaborators that reproduce the fixed vector: the chain reports
nonce 0 and both fee fields 10⁹, the signer accepts the digest. -/
def vectorSendDeps : SendDeps :=
  { verify := fun _ => some "user-1",
    walletMap := [("user-1", "wallet-1")],
    paraGetAddress := fun _ => .ok zeroAddrHex,
    rpcGetTransactionCount := fun _ => .ok 0,
    rpcGetFeeData := .ok (1000000000, 1000000000),
    paraSignRaw := fun _ _ => .ok ("0x" ++ String.mk (List.replicate 130 '1')) }

/-- Decidable equality for `Except`, needed to evaluate the embedded
functions on concrete inputs. -/
instance {ε α : Type} [DecidableEq ε] [DecidableEq α] : DecidableEq (Except ε α) := fun
  | .error e, .error f =>
    if h : e = f then .isTrue (by rw [h]) else .isFalse (fun hc => h (Except.error.inj hc))
  | .error _, .ok _ => .isFalse (fun hc => Except.noConfusion hc)
  | .ok _, .error _ => .isFalse (fun hc => Except.noConfusion hc)
  | .ok a, .ok b =>
    if h : a = b then .isTrue (by rw [h]) else .isFalse (fun hc => h (Except.ok.inj hc))

/-- Authentication fails on this request: the bearer token is absent or empty,
or the identity provider reports it invalid. -/
def authRejected (auth : Option String) (verify : String → Option String) : Prop :=
  ∀ t, extractToken auth = some t → t = "" ∨ verify t = none

/-- Wallet-fetch collaborators whose identity provider rejects every token. -/
def sampleWalletDeps : WalletDeps :=
  { verify := fun _ => none, walletMap := [],
    paraGetAddress := fun _ => .error "skip", rpcGetBalance := fun _ => .error "skip" }

/-- Send collaborators whose identity provider rejects every token. -/
def sampleSendDeps : SendDeps :=
  { verify := fun _ => none, walletMap := [],
    paraGetAddress := fun _ => .error "skip",
    rpcGetTransactionCount := fun _ => .error "skip",
    rpcGetFeeData := .error "skip", paraSignRaw := fun _ _ => .error "skip" }

/-- Wallet-fetch collaborators for an authenticated caller (`user-1`) with no
recorded association. -/
def noAssocWalletDeps : WalletDeps :=
  { verify := fun _ => some "user-1", walletMap := [],
    paraGetAddress := fun _ => .error "skip", rpcGetBalance := fun _ => .error "skip" }

/-- Send collaborators for an authenticated caller (`user-1`) with no
recorded association. -/
def noAssocSendDeps : SendDeps :=
  { verify := fun _ => some "user-1", walletMap := [],
    paraGetAddress := fun _ => .error "skip",
    rpcGetTransactionCount := fun _ => .error "skip",
    rpcGetFeeData := .error "skip", paraSignRaw := fun _ _ => .error "skip" }

/-- Wallet-fetch collaborators for a fully successful fetch: address is the
zero address, balance 1.5 ether in wei. -/
def okWalletDeps : WalletDeps :=
  { verify := fun _ => some "user-1", walletMap := [("user-1", "wallet-1")],
    paraGetAddress := fun _ => .ok zeroAddrHex,
    rpcGetBalance := fun _ => .ok 1500000000000000000 }

/-- Signup collaborators where the upstream account is created but wallet
provisioning then fails. -/
def walletFailSignupDeps : SignupDeps :=
  { signUp := fun _ _ => .created "user-1" "a@x.com",
    provision := .error "Wallet creation timeout (status: pending)",
    getAddress := fun _ => .error "skip" }

/-- An environment with both Supabase values present but no wallet-provider
key, no chain-RPC key and no port. -/
def partialEnv : Env :=
  { supabaseUrl := some "https://x.supabase.co", supabaseAnonKey := some "anon-key",
    paraApiKey := none, infuraKey := none, port := none }

/-! ## Claim theorems -/

/-- C1: the signing digest submitted to the remote signer is the keccak-256
of the canonical serialized unsigned-transaction bytes — definitionally for
every transaction, and at the fixed vector (chainId 11155111, nonce 0, zero
recipient, value 0, gasLimit 21000, both fees 10⁹, empty data) it equals the
independently computed reference hash of those serialized bytes; a concrete
send run submits exactly that hex digest to the signer's sign-raw endpoint. -/
theorem send_digest_correct :
    (∀ tx : Tx, signingDigestE tx = (unsignedSerializedE tx).map keccak256)
    ∧ unsignedSerializedE vectorTx = .ok vectorSerialized
    ∧ keccak256 vectorSerialized = referenceDigest
    ∧ signingDigestE vectorTx = .ok referenceDigest
    ∧ (sendHandler (some "Bearer tok") (some zeroAddrHex) (some "0") vectorSendDeps).effects
        = [.para "/wallets/wallet-1", .rpc "getTransactionCount", .rpc "getFeeData",
           .paraSign "wallet-1" (bytesToHex referenceDigest)]
    ∧ bytesToHex referenceDigest
        = "0xa13315d03978abd25de96d14656e2dd556719222529c0b6f3e349c868bb808db" := by
  refine ⟨fun _ => rfl, rfl, by decide, by decide, ?_, by decide⟩
  decide

/-- Polling against collaborators that never report `ready` runs the loop to
its full fuel, issuing one status query per attempt index. -/
theorem pollLoop_stuck (poll : Nat → Except String String)
    (hp : ∀ i, ∃ s, poll i = .ok s ∧ s ≠ "ready") :
    ∀ fuel a, ∀ w, w ≠ "ready" →
      ∃ w', w' ≠ "ready" ∧ pollLoop poll fuel w a = (.ok w', List.range' a fuel) := by
  intro fuel
  induction fuel with
  | zero => exact fun a w hw => ⟨w, hw, rfl⟩
  | succ f ih =>
    intro a w hw
    obtain ⟨s, hs, hsr⟩ := hp a
    obtain ⟨w', hw', hrec⟩ := ih (a + 1) s hsr
    exact ⟨w', hw', by simp [pollLoop, hw, hs, hrec, List.range'_succ]⟩

/-- C2: for a wallet whose reported status never becomes `ready`, provisioning
issues exactly `maxAttempts = 60` status queries (attempt indices 0 … 59) at
the fixed 500 ms interval, then fails with the provisioning-timeout error and
leaves the association map unchanged. -/
theorem polling_bounded (userId walletId w0 : String)
    (poll : Nat → Except String String) (m : List (String × String))
    (h0 : w0 ≠ "ready") (hp : ∀ i, ∃ s, poll i = .ok s ∧ s ≠ "ready") :
    ∃ w', createParaWallet userId walletId w0 poll m
        = (m, .error ("Wallet creation timeout (status: " ++ w' ++ ")"), List.range 60)
      ∧ (List.range 60).length = maxAttempts ∧ pollIntervalMs = 500 := by
  obtain ⟨w', hw', h⟩ := pollLoop_stuck poll hp maxAttempts 0 w0 h0
  simp only [maxAttempts] at h
  refine ⟨w', ?_, by simp [maxAttempts], rfl⟩
  simp [createParaWallet, maxAttempts, h, hw', List.range_eq_range']

/-- C2 witness: a concrete never-ready run times out after the 60 queries. -/
theorem polling_bounded_witness :
    ∃ w', createParaWallet "u" "w" "pending" (fun _ => .ok "pending") []
        = ([], .error ("Wallet creation timeout (status: " ++ w' ++ ")"), List.range 60)
      ∧ (List.range 60).length = maxAttempts ∧ pollIntervalMs = 500 :=
  polling_bounded "u" "w" "pending" (fun _ => .ok "pending") []
    (by decide) (fun _ => ⟨"pending", rfl, by decide⟩)

/-- C9: a wallet whose creation response already reports `ready` never enters
the polling loop — no status query is issued — and the association is
recorded immediately. -/
theorem ready_wallet_single_call (userId walletId : String)
    (poll : Nat → Except String String) (m : List (String × String)) :
    createParaWallet userId walletId "ready" poll m
        = (insertMap userId walletId m, .ok walletId, [])
    ∧ pollLoop poll maxAttempts "ready" 0 = (.ok "ready", []) :=
  ⟨rfl, rfl⟩

/-- C10: the association map is written only on the success path, after the
loop has observed the `ready` status; on any failure (propagated provider
error or timeout) the map is returned unchanged. -/
theorem association_only_when_ready (userId walletId w0 : String)
    (poll : Nat → Except String String) (m : List (String × String)) :
    match createParaWallet userId walletId w0 poll m with
    | (m', .error _, _) => m' = m
    | (m', .ok wid, tr) =>
        wid = walletId ∧ m' = insertMap userId walletId m
        ∧ pollLoop poll maxAttempts w0 0 = (.ok "ready", tr) := by
  simp only [createParaWallet]
  rcases hp : pollLoop poll maxAttempts w0 0 with ⟨r, tr⟩
  cases r with
  | error e => simp
  | ok w =>
    by_cases hw : w = "ready"
    · subst hw
      simp [hp]
    · simp [hw]

/-- C3: a wallet-scoped request with no token, an empty token, or a token the
identity provider rejects yields 401 from both `GET /wallet` and
`POST /send`, with no call to the wallet provider and none to the chain RPC
endpoint. -/
theorem auth_gating (auth toStr amount : Option String) (dw : WalletDeps) (ds : SendDeps)
    (hw : authRejected auth dw.verify) (hs : authRejected auth ds.verify) :
    ((getWalletHandler auth dw).status = 401 ∧ (getWalletHandler auth dw).effects = [])
    ∧ (sendHandler auth toStr amount ds).status = 401
    ∧ (sendHandler auth toStr amount ds).effects = [] := by
  have g1 : (getWalletHandler auth dw).status = 401 ∧ (getWalletHandler auth dw).effects = [] := by
    cases hx : extractToken auth with
    | none => simp [getWalletHandler, hx]
    | some t =>
      rcases hw t hx with h | h
      · subst h; simp [getWalletHandler, hx]
      · by_cases ht : t = ""
        · subst ht; simp [getWalletHandler, hx]
        · simp [getWalletHandler, hx, ht, h]
  have g2 : (sendHandler auth toStr amount ds).status = 401
      ∧ (sendHandler auth toStr amount ds).effects = [] := by
    cases hx : extractToken auth with
    | none => simp [sendHandler, hx]
    | some t =>
      rcases hs t hx with h | h
      · subst h; simp [sendHandler, hx]
      · by_cases ht : t = ""
        · subst ht; simp [sendHandler, hx]
        · simp [sendHandler, hx, ht, h]
  exact ⟨g1, g2⟩

/-- C3 witness: a concrete rejected-token request 401s on both routes with no
wallet-provider or chain-RPC traffic. -/
theorem auth_gating_witness :
    ((getWalletHandler (some "Bearer bad") sampleWalletDeps).status = 401
      ∧ (getWalletHandler (some "Bearer bad") sampleWalletDeps).effects = [])
    ∧ (sendHandler (some "Bearer bad") (some zeroAddrHex) (some "1") sampleSendDeps).status = 401
    ∧ (sendHandler (some "Bearer bad") (some zeroAddrHex) (some "1") sampleSendDeps).effects = [] :=
  auth_gating (some "Bearer bad") (some zeroAddrHex) (some "1") sampleWalletDeps sampleSendDeps
    (fun _ _ => Or.inr rfl) (fun _ _ => Or.inr rfl)

/-- C4 counterexample: with amount `"-0.1"` the send operation responds 500
(the negative value survives `parseEther` and is only rejected inside the
generic try/catch when the transaction is serialized), not the claimed
400-class validation error. -/
theorem negative_amount_not_validation_error :
    (sendHandler (some "Bearer tok") (some zeroAddrHex) (some "-0.1") vectorSendDeps).status = 500
    ∧ ¬ (sendHandler (some "Bearer tok") (some zeroAddrHex) (some "-0.1")
          vectorSendDeps).status = 400 := by
  constructor <;> decide

/-- C4 amended: amount `"0"` is valid and produces the zero-value
transaction; `"-0.1"` parses to a negative value and the send fails with the
500-class serialization error `unsigned value cannot be negative` (not a
400); `"abc"` is rejected (parse error, surfaced as 500); the smallest unit
`"0.000000000000000001"` converts exactly to 1 wei. -/
theorem amount_parsing_boundary :
    parseEther "0" = .ok 0
    ∧ buildTxE 0 1000000000 1000000000 zeroAddrHex "0" = .ok vectorTx
    ∧ parseEther "-0.1" = .ok (-100000000000000000)
    ∧ (sendHandler (some "Bearer tok") (some zeroAddrHex) (some "-0.1") vectorSendDeps).body
        = [("error", .s "unsigned value cannot be negative")]
    ∧ parseEther "abc" = .error "invalid FixedNumber string value"
    ∧ (sendHandler (some "Bearer tok") (some zeroAddrHex) (some "abc") vectorSendDeps).status = 500
    ∧ parseEther "0.000000000000000001" = .ok 1 :=
  ⟨by decide, by decide, by decide, by decide, by decide, by decide, by decide⟩

/-- C5 counterexample: an authenticated caller with no recorded association
receives 400, not 404, from the send operation when the request body's `to`
field is empty — the field-presence check runs before the association
lookup. -/
theorem missing_fields_before_association :
    (sendHandler (some "Bearer tok") (some "") (some "0.1") noAssocSendDeps).status = 400
    ∧ ¬ (sendHandler (some "Bearer tok") (some "") (some "0.1")
          noAssocSendDeps).status = 404 := by
  constructor <;> decide

/-- C5 amended: an authenticated caller with no recorded association receives
the 404 `Wallet not found` error from fetch-wallet unconditionally, and from
send whenever the request body passes the field-presence check; a send with a
missing/empty field yields 400 instead. -/
theorem association_requirement (auth toStr amount : Option String) (t userId : String)
    (dw : WalletDeps) (ds : SendDeps)
    (hx : extractToken auth = some t) (ht : ¬ t = "")
    (hvw : dw.verify t = some userId) (hvs : ds.verify t = some userId)
    (hmw : lookupMap dw.walletMap userId = none) (hms : lookupMap ds.walletMap userId = none)
    (hto : strFalsy toStr = false) (ham : strFalsy amount = false) :
    getWalletHandler auth dw = ⟨404, [("error", .s "Wallet not found")], []⟩
    ∧ sendHandler auth toStr amount ds = ⟨404, [("error", .s "Wallet not found")], []⟩ := by
  constructor
  · simp [getWalletHandler, hx, ht, hvw, hmw]
  · simp [sendHandler, hx, ht, hvs, hms, hto, ham]

/-- C5 witness: a concrete authenticated, associationless caller gets 404
from both routes when the send body is well-formed. -/
theorem association_requirement_witness :
    getWalletHandler (some "Bearer tok") noAssocWalletDeps
        = ⟨404, [("error", .s "Wallet not found")], []⟩
    ∧ sendHandler (some "Bearer tok") (some zeroAddrHex) (some "1") noAssocSendDeps
        = ⟨404, [("error", .s "Wallet not found")], []⟩ :=
  association_requirement (some "Bearer tok") (some zeroAddrHex) (some "1") "tok" "user-1"
    noAssocWalletDeps noAssocSendDeps rfl (by decide) rfl rfl rfl rfl rfl rfl

/-- C6 counterexample: in `src/api/handler.js`, a register request whose
account is created upstream but whose wallet provisioning fails responds with
HTTP 200 (partial success), not the claimed 500. -/
theorem api_signup_partial_success :
    (signupApiHandler (some "a@x.com") (some "pw") walletFailSignupDeps).1 = 200
    ∧ ¬ (signupApiHandler (some "a@x.com") (some "pw") walletFailSignupDeps).1 = 500 := by
  constructor <;> decide

/-- C6 amended: in `src/server.js`, `POST /signup` responds 500 when the
account is created and provisioning then fails, and its only statuses are
200, 400 and 500; in `src/api/handler.js`, the same situation instead yields
HTTP 200 with `wallet_address: null` and a `warning` field. -/
theorem signup_statuses (email password : Option String) (d : SignupDeps)
    (userId em e : String)
    (hemail : strFalsy email = false) (hpw : strFalsy password = false)
    (hcreated : d.signUp (email.getD "") (password.getD "") = .created userId em)
    (hfail : d.provision = .error e) :
    (signupServer email password d).1 = 500
    ∧ (signupApiHandler email password d).1 = 200
    ∧ ("warning", JVal.s "User created but wallet creation failed")
        ∈ (signupApiHandler email password d).2
    ∧ ("wallet_address", JVal.null) ∈ (signupApiHandler email password d).2
    ∧ ∀ e2 p2 d2, (signupServer e2 p2 d2).1 = 200 ∨ (signupServer e2 p2 d2).1 = 400
        ∨ (signupServer e2 p2 d2).1 = 500 := by
  refine ⟨?_, ?_, ?_, ?_, ?_⟩
  · simp [signupServer, hemail, hpw, hcreated, hfail, Except.bind]
  · simp [signupApiHandler, hemail, hpw, hcreated, hfail, Except.bind]
  · simp [signupApiHandler, hemail, hpw, hcreated, hfail, Except.bind]
  · simp [signupApiHandler, hemail, hpw, hcreated, hfail, Except.bind]
  · intro e2 p2 d2
    unfold signupServer
    split
    · simp
    · split
      · simp
      · simp
      · split <;> simp

/-- C6 witness: a concrete created-then-provisioning-failed register request
gets 500 from the server handler and a 200 partial success from the API
handler. -/
theorem signup_statuses_witness :
    (signupServer (some "a@x.com") (some "pw") walletFailSignupDeps).1 = 500
    ∧ (signupApiHandler (some "a@x.com") (some "pw") walletFailSignupDeps).1 = 200
    ∧ ("warning", JVal.s "User created but wallet creation failed")
        ∈ (signupApiHandler (some "a@x.com") (some "pw") walletFailSignupDeps).2
    ∧ ("wallet_address", JVal.null)
        ∈ (signupApiHandler (some "a@x.com") (some "pw") walletFailSignupDeps).2
    ∧ ∀ e2 p2 d2, (signupServer e2 p2 d2).1 = 200 ∨ (signupServer e2 p2 d2).1 = 400
        ∨ (signupServer e2 p2 d2).1 = 500 :=
  signup_statuses (some "a@x.com") (some "pw") walletFailSignupDeps "user-1" "a@x.com"
    "Wallet creation timeout (status: pending)" rfl rfl rfl rfl

/-- C7 counterexample: with both Supabase values present but the
wallet-provider key, chain-RPC key and port all absent, startup succeeds
anyway — the Para key is stored unset, the RPC URL silently embeds the string
`undefined`, and the port silently defaults to 3000 — contradicting the
claimed startup-time fatality for every required value. -/
theorem startup_accepts_missing_keys :
    serverStartup partialEnv
      = .ok { paraApiKey := none,
              rpcUrl := "https://eth-sepolia.g.alchemy.com/v2/undefined",
              port := "3000" } := by
  decide

/-- C7 amended: only the identity-provider URL and key are validated at
module load (the supabase-js client constructor throws when either is
absent); a missing wallet-provider key or chain-RPC key does not prevent
startup (those failures surface lazily, per request), and a missing port is
replaced by the silent default 3000. -/
theorem startup_validation_scope (e : Env)
    (hu : strFalsy e.supabaseUrl = false) (hk : strFalsy e.supabaseAnonKey = false) :
    serverStartup e
      = .ok { paraApiKey := e.paraApiKey,
              rpcUrl := "https://eth-sepolia.g.alchemy.com/v2/" ++ e.infuraKey.getD "undefined",
              port := if strFalsy e.port then "3000" else e.port.getD "3000" }
    ∧ serverStartup { e with supabaseUrl := none } = .error "supabaseUrl is required."
    ∧ serverStartup { e with supabaseAnonKey := none } = .error "supabaseKey is required." := by
  refine ⟨?_, ?_, ?_⟩
  · simp [serverStartup, hu, hk]
  · simp [serverStartup, strFalsy]
  · simp only [serverStartup]
    rw [show ({ e with supabaseAnonKey := none } : Env).supabaseUrl = e.supabaseUrl from rfl, hu]
    simp [strFalsy]

/-- C7 amended witness: the concrete partial environment starts up with the
defaults, and dropping either Supabase value is fatal. -/
theorem startup_validation_scope_witness :
    serverStartup partialEnv
      = .ok { paraApiKey := partialEnv.paraApiKey,
              rpcUrl := "https://eth-sepolia.g.alchemy.com/v2/"
                  ++ partialEnv.infuraKey.getD "undefined",
              port := if strFalsy partialEnv.port then "3000"
                  else partialEnv.port.getD "3000" }
    ∧ serverStartup { partialEnv with supabaseUrl := none }
        = .error "supabaseUrl is required."
    ∧ serverStartup { partialEnv with supabaseAnonKey := none }
        = .error "supabaseKey is required." :=
  startup_validation_scope partialEnv rfl rfl

/-- C8 counterexample: the success body of the fetch-wallet operation has
exactly the fields `address` and `balance_eth`; it has no field named
`balance`. -/
theorem wallet_body_field_names :
    (getWalletHandler (some "Bearer tok") okWalletDeps).body.map Prod.fst
        = ["address", "balance_eth"]
    ∧ ¬ "balance" ∈ (getWalletHandler (some "Bearer tok") okWalletDeps).body.map Prod.fst := by
  constructor <;> decide

/-- C8 amended: every successful fetch-wallet response carries exactly the
fields `address` and `balance_eth` (not `balance`), where `balance_eth` is
the wei balance rendered by `formatEther` as a decimal string in ether, the
network's native unit (e.g. 1500000000000000000 wei renders as `"1.5"`,
0 wei as `"0.0"`). -/
theorem wallet_success_body (auth : Option String) (t userId walletId address : String)
    (bal : Nat) (d : WalletDeps)
    (hx : extractToken auth = some t) (ht : ¬ t = "")
    (hv : d.verify t = some userId) (hm : lookupMap d.walletMap userId = some walletId)
    (ha : d.paraGetAddress walletId = .ok address) (hb : d.rpcGetBalance address = .ok bal) :
    getWalletHandler auth d
      = ⟨200, [("address", .s address), ("balance_eth", .s (formatEther bal))],
         [.para ("/wallets/" ++ walletId), .rpc "getBalance"]⟩
    ∧ formatEther 1500000000000000000 = "1.5" ∧ formatEther 0 = "0.0" := by
  refine ⟨?_, by decide, by decide⟩
  simp [getWalletHandler, hx, ht, hv, hm, ha, hb]

/-- C8 witness: a concrete successful fetch returns the zero address and the
1.5-ether balance string. -/
theorem wallet_success_body_witness :
    getWalletHandler (some "Bearer tok") okWalletDeps
      = ⟨200, [("address", .s zeroAddrHex),
               ("balance_eth", .s (formatEther 1500000000000000000))],
         [.para ("/wallets/" ++ "wallet-1"), .rpc "getBalance"]⟩
    ∧ formatEther 1500000000000000000 = "1.5" ∧ formatEther 0 = "0.0" :=
  wallet_success_body (some "Bearer tok") "tok" "user-1" "wallet-1" zeroAddrHex
    1500000000000000000 okWalletDeps rfl (by decide) rfl rfl rfl rfl

end FintechPara
